import Mathlib

/-!
Verification of the parameter-scaler logic of `vidfilter_scripter`
(`src/vidfilter_scripter/__init__.py`).

The numeric values of the program are Python floats doing affine
arithmetic; we embed them as rationals (`ℚ`).  The Python builtin `round`
rounds half to even; `pyRound` implements that convention.  Python float division raises
`ZeroDivisionError` on a zero divisor, so `Parameter.__init__` (which divides
by `max - min`) is embedded as a fallible constructor returning `Option`.
String formatting with the format spec `.2f` (two fixed decimal places, rounding
half to even) is embedded as `formatFixed2`.
-/

namespace Vidfilter

/-- The Python builtin `round`: nearest integer, ties to even. -/
def pyRound (q : ℚ) : ℤ :=
  if q - ⌊q⌋ < 1/2 then ⌊q⌋
  else if 1/2 < q - ⌊q⌋ then ⌊q⌋ + 1
  else if ⌊q⌋ % 2 = 0 then ⌊q⌋ else ⌊q⌋ + 1

/-- Fixed-point rendering with two decimal places, rounding half to even:
the embedding of the Python format spec `.2f` used by every entry of
`RANGES`. -/
def formatFixed2 (q : ℚ) : String :=
  let n : ℤ := pyRound (q * 100)
  let sign : String := if n < 0 then "-" else ""
  let a : ℕ := n.natAbs
  sign ++ toString (a / 100) ++ "." ++
    (if a % 100 < 10 then "0" ++ toString (a % 100) else toString (a % 100))

/-- The `Range` namedtuple with fields `min`, `max`, `default`, `format`.
The `format` field holds the rendering function (the source stores the
format string `.2f`; we store its meaning). -/
structure Range where
  min : ℚ
  max : ℚ
  default : ℚ
  format : ℚ → String

/-- `Range(0.0, 2.0, 1.0, .2f)`, the contrast entry of `RANGES`. -/
def contrastRange : Range := ⟨0.0, 2.0, 1.0, formatFixed2⟩

/-- `Range(-0.5, 0.5, 0.0, .2f)`, the brightness entry of `RANGES`. -/
def brightnessRange : Range := ⟨-0.5, 0.5, 0.0, formatFixed2⟩

/-- `Range(0.0, 3.0, 1.0, .2f)`, the saturation entry of `RANGES`. -/
def saturationRange : Range := ⟨0.0, 3.0, 1.0, formatFixed2⟩

/-- `Range(0.1, 5.0, 1.0, .2f)`, the gamma entry of `RANGES`. -/
def gammaRange : Range := ⟨0.1, 5.0, 1.0, formatFixed2⟩

/-- The `RANGES` dict, in its (insertion-ordered) key order. -/
def RANGES : List (String × Range) :=
  [ ("contrast",   contrastRange),
    ("brightness", brightnessRange),
    ("saturation", saturationRange),
    ("gamma",      gammaRange) ]

/-- `SLIDER_MAX = 200`. -/
def SLIDER_MAX : ℤ := 200

/-- The state of class `Parameter`: fields assigned in `Parameter.__init__`. -/
structure Parameter where
  var : String
  value : ℚ
  range : ℚ
  scale : ℚ
  offset : ℚ
  format : ℚ → String

/-- `Parameter.__init__(self, var, rng)`.  `self.scale = SLIDER_MAX /
self.range` raises `ZeroDivisionError` when `self.range == 0`, hence the
`Option`. -/
def Parameter.init (var : String) (rng : Range) : Option Parameter :=
  if rng.max - rng.min = 0 then none
  else some
    { var := var
      value := rng.default
      range := rng.max - rng.min
      scale := (SLIDER_MAX : ℚ) / (rng.max - rng.min)
      offset := rng.min * ((SLIDER_MAX : ℚ) / (rng.max - rng.min))
      format := rng.format }

/-- `Parameter.slider_value(self)`: `round(self.value * self.scale - self.offset)`. -/
def Parameter.slider_value (p : Parameter) : ℤ :=
  pyRound (p.value * p.scale - p.offset)

/-- `Parameter.set_from_slider_value(self, value)`:
`self.value = (value + self.offset) / self.scale`. -/
def Parameter.set_from_slider_value (p : Parameter) (value : ℤ) : Parameter :=
  { p with value := ((value : ℚ) + p.offset) / p.scale }

/-- `Parameter.label(self)`: `self.format.format(self.value)`. -/
def Parameter.label (p : Parameter) : String :=
  p.format p.value

/-- The per-slider update applied inside `slot_slider_value_changed`:
`self.parameters[var].set_from_slider_value(value)` touches exactly the
parameter whose key is `var`. -/
def upd (var : String) (value : ℤ) (p : Parameter) : Parameter :=
  if p.var = var then p.set_from_slider_value value else p

/-- `MainWindow.slot_slider_value_changed(self, var, value)`: updates the
named parameter, then builds
the concatenation of `eq=` with the colon-joined `var=label` pieces of all
parameters
(the string handed to `self.mpv.command`).  The parameters dict is embedded
as the ordered list of its values. -/
def slot_slider_value_changed (ps : List Parameter) (var : String)
    (value : ℤ) : List Parameter × String :=
  let ps2 := ps.map (upd var value)
  (ps2, "eq=" ++ String.intercalate ":" (ps2.map fun p => p.var ++ "=" ++ p.label))

/-- `MainWindow.slot_reset_var(self, var)`:
`self.parameters[var].value = RANGES[var].default`. -/
def slot_reset_var (rng : Range) (p : Parameter) : Parameter :=
  { p with value := rng.default }

/-- The slider-driven operations that mutate a `Parameter` at runtime. -/
inductive Op where
  | setSlider (pos : ℤ)
  | reset

/-- An operation is UI-reachable when its slider position lies in the
clamped slider domain `[0, SLIDER_MAX]` of the widget. -/
def Op.valid : Op → Bool
  | .setSlider pos => 0 ≤ pos && pos ≤ SLIDER_MAX
  | .reset => true

/-- Apply one runtime operation to a parameter. -/
def applyOp (rng : Range) (p : Parameter) : Op → Parameter
  | .setSlider pos => p.set_from_slider_value pos
  | .reset => slot_reset_var rng p

/-- Apply a sequence of runtime operations. -/
def applyOps (rng : Range) (p : Parameter) (ops : List Op) : Parameter :=
  ops.foldl (applyOp rng) p

/-- `self.parameters = { var: Parameter(var, rng) for var, rng in
RANGES.items() }`, as the ordered list of constructed parameters. -/
def parameters : Option (List Parameter) :=
  RANGES.mapM fun vr => Parameter.init vr.1 vr.2

/-- Look up one constructed parameter by its `RANGES` key. -/
def paramOf (var : String) : Option Parameter :=
  (List.lookup var RANGES).bind (Parameter.init var)

/-- The record `Parameter.__init__` builds when `max - min ≠ 0`. -/
def initParam (var : String) (rng : Range) : Parameter :=
  { var := var
    value := rng.default
    range := rng.max - rng.min
    scale := (SLIDER_MAX : ℚ) / (rng.max - rng.min)
    offset := rng.min * ((SLIDER_MAX : ℚ) / (rng.max - rng.min))
    format := rng.format }

/-! ### Basic facts about `pyRound` -/

theorem floor_le_pyRound (q : ℚ) : ⌊q⌋ ≤ pyRound q := by
  unfold pyRound; split_ifs <;> omega

theorem pyRound_le_floor_add_one (q : ℚ) : pyRound q ≤ ⌊q⌋ + 1 := by
  unfold pyRound; split_ifs <;> omega

theorem le_pyRound (n : ℤ) (q : ℚ) (h : (n : ℚ) ≤ q) : n ≤ pyRound q :=
  le_trans (Int.le_floor.mpr h) (floor_le_pyRound q)

theorem pyRound_le (n : ℤ) (q : ℚ) (h : q ≤ (n : ℚ)) : pyRound q ≤ n := by
  have hf : ⌊q⌋ ≤ n := by simpa using Int.floor_le_floor h
  unfold pyRound
  split_ifs with h1 h2 h3
  · exact hf
  · rcases eq_or_lt_of_le hf with h4 | h4
    · exfalso; rw [h4] at h2; linarith
    · omega
  · exact hf
  · rcases eq_or_lt_of_le hf with h4 | h4
    · exfalso
      have hr : q - ⌊q⌋ = 1/2 := le_antisymm (not_lt.mp h2) (not_lt.mp h1)
      rw [h4] at hr; linarith
    · omega

theorem abs_pyRound_sub_le (q : ℚ) : |(pyRound q : ℚ) - q| ≤ 1/2 := by
  have h0 : (⌊q⌋ : ℚ) ≤ q := Int.floor_le q
  have h1 : q < ⌊q⌋ + 1 := Int.lt_floor_add_one q
  unfold pyRound
  split_ifs with ha hb hc
  · rw [abs_le]; constructor <;> linarith
  · rw [abs_le]; push_cast; constructor <;> linarith
  · rw [not_lt] at ha; rw [abs_le]; constructor <;> linarith
  · rw [not_lt] at ha hb; rw [abs_le]; push_cast; constructor <;> linarith

theorem pyRound_intCast (n : ℤ) : pyRound (n : ℚ) = n := by
  unfold pyRound
  rw [Int.floor_intCast, sub_self, if_pos (by norm_num : (0 : ℚ) < 1/2)]

/-- `pyRound q = n` when `q` lies in `[n, n + 1/2)`. -/
theorem pyRound_eq_of_lt_half (n : ℤ) (q : ℚ) (h1 : (n : ℚ) ≤ q)
    (h2 : q < n + 1/2) : pyRound q = n := by
  have hf : ⌊q⌋ = n := by
    rw [Int.floor_eq_iff]
    exact ⟨h1, by linarith⟩
  unfold pyRound
  rw [hf, if_pos (by linarith : q - (n : ℚ) < 1/2)]

/-- `pyRound q = n` when `q` lies in `(n - 1/2, n]`. -/
theorem pyRound_eq_of_half_lt (n : ℤ) (q : ℚ) (h1 : (n : ℚ) - 1/2 < q)
    (h2 : q ≤ n) : pyRound q = n := by
  rcases eq_or_lt_of_le h2 with he | hlt
  · rw [he, pyRound_intCast]
  · have hf : ⌊q⌋ = n - 1 := by
      rw [Int.floor_eq_iff]
      constructor <;> push_cast <;> linarith
    unfold pyRound
    rw [hf, if_neg (by push_cast; linarith), if_pos (by push_cast; linarith)]
    omega

/-- Evaluation helper for `formatFixed2` once the rounded integer of
hundredths is known. -/
theorem formatFixed2_of (q : ℚ) (n : ℤ) (h : pyRound (q * 100) = n) :
    formatFixed2 q =
      (if n < 0 then "-" else "") ++ toString (n.natAbs / 100) ++ "." ++
      (if n.natAbs % 100 < 10 then "0" ++ toString (n.natAbs % 100)
       else toString (n.natAbs % 100)) := by
  unfold formatFixed2
  rw [h]

/-- Evaluation helper for `formatFixed2` when the scaled value is exactly an
integer. -/
theorem formatFixed2_eval (q : ℚ) (n : ℤ) (h : q * 100 = (n : ℚ)) :
    formatFixed2 q =
      (if n < 0 then "-" else "") ++ toString (n.natAbs / 100) ++ "." ++
      (if n.natAbs % 100 < 10 then "0" ++ toString (n.natAbs % 100)
       else toString (n.natAbs % 100)) :=
  formatFixed2_of q n (by rw [h]; exact pyRound_intCast n)

/-- `upd` never changes the `var` field. -/
theorem upd_var (var : String) (value : ℤ) (p : Parameter) :
    (upd var value p).var = p.var := by
  unfold upd Parameter.set_from_slider_value
  split_ifs <;> rfl

theorem intercalate_four (a b c d : String) :
    String.intercalate ":" [a, b, c, d] = a ++ ":" ++ b ++ ":" ++ c ++ ":" ++ d :=
  rfl

/-! ### Characterizing `Parameter.init` -/

theorem init_eq_some (var : String) (rng : Range) (h : rng.max - rng.min ≠ 0) :
    Parameter.init var rng = some (initParam var rng) := by
  unfold Parameter.init initParam
  exact if_neg h

theorem init_inj (var : String) (rng : Range) (p : Parameter)
    (h : Parameter.init var rng = some p) :
    rng.max - rng.min ≠ 0 ∧ p = initParam var rng := by
  unfold Parameter.init at h
  by_cases hc : rng.max - rng.min = 0
  · rw [if_pos hc] at h
    exact absurd h (by simp)
  · rw [if_neg hc] at h
    refine ⟨hc, ?_⟩
    unfold initParam
    exact (Option.some.inj h).symm

theorem initParam_scale_pos (var : String) (rng : Range) (h : rng.min < rng.max) :
    0 < (initParam var rng).scale := by
  unfold initParam
  apply div_pos
  · norm_num [SLIDER_MAX]
  · linarith

/-- The value written by `set_from_slider_value`, as an affine function of
the slider position, for any parameter whose `scale`/`offset` fields carry
the values computed by `Parameter.__init__`. -/
theorem set_value_eq (rng : Range) (p : Parameter) (pos : ℤ)
    (hlt : rng.min < rng.max)
    (hs : p.scale = (SLIDER_MAX : ℚ) / (rng.max - rng.min))
    (ho : p.offset = rng.min * p.scale) :
    (p.set_from_slider_value pos).value
      = (pos : ℚ) * (rng.max - rng.min) / 200 + rng.min := by
  have hne : rng.max - rng.min ≠ 0 := sub_ne_zero.mpr (ne_of_gt hlt)
  unfold Parameter.set_from_slider_value
  simp only [ho, hs, SLIDER_MAX]
  push_cast
  field_simp

theorem initParam_set_value (var : String) (rng : Range) (h : rng.min < rng.max)
    (pos : ℤ) :
    ((initParam var rng).set_from_slider_value pos).value
      = (pos : ℚ) * (rng.max - rng.min) / 200 + rng.min :=
  set_value_eq rng (initParam var rng) pos h rfl rfl

/-! ### C5: initialization -/

/-- C5: Constructing a `Parameter` computes `scale = SLIDER_MAX / (max - min)`
and `offset = min * scale` and sets `value = default`; construction fails
(division by zero) if and only if `max == min`. -/
theorem claim5_init_spec (var : String) (rng : Range) :
    (Parameter.init var rng = none ↔ rng.max = rng.min) ∧
    (∀ p : Parameter, Parameter.init var rng = some p →
      p.scale = (SLIDER_MAX : ℚ) / (rng.max - rng.min) ∧
      p.offset = rng.min * p.scale ∧
      p.value = rng.default) := by
  constructor
  · unfold Parameter.init
    by_cases hc : rng.max - rng.min = 0
    · rw [if_pos hc]
      simpa using sub_eq_zero.mp hc
    · rw [if_neg hc]
      constructor
      · intro h; exact absurd h (by simp)
      · intro he; exact (hc (sub_eq_zero.mpr he)).elim
  · intro p hp
    obtain ⟨hne, hpe⟩ := init_inj var rng p hp
    rw [hpe]
    unfold initParam
    exact ⟨rfl, rfl, rfl⟩

/-- Witness for C5 at the contrast range: initialization succeeds and the
inner implication applies to its result. -/
theorem claim5_init_spec_witness :
    Parameter.init "contrast" contrastRange
        = some (initParam "contrast" contrastRange) ∧
    ((initParam "contrast" contrastRange).scale
        = (SLIDER_MAX : ℚ) / (contrastRange.max - contrastRange.min) ∧
      (initParam "contrast" contrastRange).offset
        = contrastRange.min * (initParam "contrast" contrastRange).scale ∧
      (initParam "contrast" contrastRange).value = contrastRange.default) :=
  ⟨init_eq_some _ _ (by norm_num [contrastRange]),
   (claim5_init_spec "contrast" contrastRange).2 _
     (init_eq_some _ _ (by norm_num [contrastRange]))⟩

/-! ### C4: boundary positions -/

/-- C4: for every range with `min < max`, `set_from_slider_value(0)` sets
`value = min` and `set_from_slider_value(SLIDER_MAX)` sets `value = max`. -/
theorem claim4_boundaries (var : String) (rng : Range) (p : Parameter)
    (hlt : rng.min < rng.max) (hinit : Parameter.init var rng = some p) :
    (p.set_from_slider_value 0).value = rng.min ∧
    (p.set_from_slider_value SLIDER_MAX).value = rng.max := by
  obtain ⟨hne, hpe⟩ := init_inj var rng p hinit
  subst hpe
  constructor
  · rw [initParam_set_value var rng hlt 0]
    push_cast
    ring
  · rw [initParam_set_value var rng hlt SLIDER_MAX]
    simp only [SLIDER_MAX]
    push_cast
    ring

/-- Witness for C4 at the gamma range. -/
theorem claim4_boundaries_witness :
    gammaRange.min < gammaRange.max ∧
    ((initParam "gamma" gammaRange).set_from_slider_value 0).value
        = gammaRange.min ∧
    ((initParam "gamma" gammaRange).set_from_slider_value SLIDER_MAX).value
        = gammaRange.max :=
  ⟨by norm_num [gammaRange],
   claim4_boundaries "gamma" gammaRange _ (by norm_num [gammaRange])
     (init_eq_some _ _ (by norm_num [gammaRange]))⟩

/-! ### C1: slider round-trip -/

/-- C1: for every range with `min < max` and every slider position
`p ∈ [0, SLIDER_MAX]`, after `set_from_slider_value(p)` the value returned
by `slider_value()` equals `p` within ±1. -/
theorem claim1_slider_roundtrip (var : String) (rng : Range) (p : Parameter)
    (pos : ℤ) (hlt : rng.min < rng.max) (h0 : 0 ≤ pos) (h1 : pos ≤ SLIDER_MAX)
    (hinit : Parameter.init var rng = some p) :
    |(p.set_from_slider_value pos).slider_value - pos| ≤ 1 := by
  obtain ⟨hne, hpe⟩ := init_inj var rng p hinit
  subst hpe
  have hsne : (initParam var rng).scale ≠ 0 :=
    ne_of_gt (initParam_scale_pos var rng hlt)
  have hexact : ((initParam var rng).set_from_slider_value pos).slider_value = pos := by
    unfold Parameter.slider_value Parameter.set_from_slider_value
    rw [div_mul_cancel₀ _ hsne, add_sub_cancel_right]
    exact pyRound_intCast pos
  rw [hexact]
  simp

/-- Witness for C1 at the saturation range, position 37. -/
theorem claim1_slider_roundtrip_witness :
    saturationRange.min < saturationRange.max ∧ (0 : ℤ) ≤ 37 ∧
    (37 : ℤ) ≤ SLIDER_MAX ∧
    |((initParam "saturation" saturationRange).set_from_slider_value 37).slider_value
        - 37| ≤ 1 :=
  ⟨by norm_num [saturationRange], by norm_num, by norm_num [SLIDER_MAX],
   claim1_slider_roundtrip "saturation" saturationRange _ 37
     (by norm_num [saturationRange]) (by norm_num) (by norm_num [SLIDER_MAX])
     (init_eq_some _ _ (by norm_num [saturationRange]))⟩

/-! ### C7: no clamping in `set_from_slider_value` -/

/-- C7: `set_from_slider_value` accepts any integer and performs no
clamping: it always sets `value = (position + offset) / scale`, and any
position strictly outside `[0, SLIDER_MAX]` yields a value strictly outside
`[min, max]`. -/
theorem claim7_no_clamping (var : String) (rng : Range) (p : Parameter)
    (hlt : rng.min < rng.max) (hinit : Parameter.init var rng = some p) :
    (∀ pos : ℤ,
      (p.set_from_slider_value pos).value = ((pos : ℚ) + p.offset) / p.scale) ∧
    (∀ pos : ℤ, pos < 0 → (p.set_from_slider_value pos).value < rng.min) ∧
    (∀ pos : ℤ, SLIDER_MAX < pos → rng.max < (p.set_from_slider_value pos).value) := by
  obtain ⟨hne, hpe⟩ := init_inj var rng p hinit
  subst hpe
  refine ⟨fun pos => rfl, fun pos hneg => ?_, fun pos hbig => ?_⟩
  · rw [initParam_set_value var rng hlt pos]
    have hc : (pos : ℚ) < 0 := by exact_mod_cast hneg
    have hm : (0 : ℚ) < rng.max - rng.min := by linarith
    have hp : (pos : ℚ) * (rng.max - rng.min) < 0 := mul_neg_of_neg_of_pos hc hm
    linarith
  · rw [initParam_set_value var rng hlt pos]
    have h2 : (200 : ℤ) < pos := by simpa [SLIDER_MAX] using hbig
    have hc : (200 : ℚ) < (pos : ℚ) := by exact_mod_cast h2
    have hm : (0 : ℚ) < rng.max - rng.min := by linarith
    have hp : 0 < ((pos : ℚ) - 200) * (rng.max - rng.min) :=
      mul_pos (by linarith) hm
    nlinarith

/-- Witness for C7 at the brightness range. -/
theorem claim7_no_clamping_witness :
    brightnessRange.min < brightnessRange.max ∧
    ((∀ pos : ℤ,
        ((initParam "brightness" brightnessRange).set_from_slider_value pos).value
          = ((pos : ℚ) + (initParam "brightness" brightnessRange).offset)
              / (initParam "brightness" brightnessRange).scale) ∧
      (∀ pos : ℤ, pos < 0 →
        ((initParam "brightness" brightnessRange).set_from_slider_value pos).value
          < brightnessRange.min) ∧
      (∀ pos : ℤ, SLIDER_MAX < pos →
        brightnessRange.max
          < ((initParam "brightness" brightnessRange).set_from_slider_value pos).value)) :=
  ⟨by norm_num [brightnessRange],
   claim7_no_clamping "brightness" brightnessRange _
     (by norm_num [brightnessRange])
     (init_eq_some _ _ (by norm_num [brightnessRange]))⟩

/-! ### C10: totality of the operations -/

/-- C10: for every parameter built from a range with `min < max`, the three
operations are total: `scale` is nonzero, so the division performed by
`set_from_slider_value` is a genuine (exact) division and cannot be a
division by zero, and `label` formats any reachable value. -/
theorem claim10_totality (var : String) (rng : Range) (p : Parameter)
    (hlt : rng.min < rng.max) (hinit : Parameter.init var rng = some p) :
    p.scale ≠ 0 ∧
    (∀ pos : ℤ,
      (p.set_from_slider_value pos).value * p.scale = (pos : ℚ) + p.offset) ∧
    (∀ w : ℚ, ({ p with value := w } : Parameter).label = rng.format w) := by
  obtain ⟨hne, hpe⟩ := init_inj var rng p hinit
  subst hpe
  have hs := initParam_scale_pos var rng hlt
  refine ⟨ne_of_gt hs, fun pos => ?_, fun w => rfl⟩
  unfold Parameter.set_from_slider_value
  exact div_mul_cancel₀ _ (ne_of_gt hs)

/-- Witness for C10 at the contrast range. -/
theorem claim10_totality_witness :
    contrastRange.min < contrastRange.max ∧
    ((initParam "contrast" contrastRange).scale ≠ 0 ∧
      (∀ pos : ℤ,
        ((initParam "contrast" contrastRange).set_from_slider_value pos).value
            * (initParam "contrast" contrastRange).scale
          = (pos : ℚ) + (initParam "contrast" contrastRange).offset) ∧
      (∀ w : ℚ,
        ({ initParam "contrast" contrastRange with value := w } : Parameter).label
          = contrastRange.format w)) :=
  ⟨by norm_num [contrastRange],
   claim10_totality "contrast" contrastRange _ (by norm_num [contrastRange])
     (init_eq_some _ _ (by norm_num [contrastRange]))⟩

/-! ### C6: `slider_value` stays in range -/

/-- C6: `slider_value()` returns `round(value * scale - offset)`, and
whenever the current value lies in `[min, max]` the returned integer lies
in `[0, SLIDER_MAX]`; no clamping of the result is performed. -/
theorem claim6_slider_value_range (var : String) (rng : Range) (p : Parameter)
    (w : ℚ) (hlt : rng.min < rng.max)
    (hinit : Parameter.init var rng = some p)
    (hw1 : rng.min ≤ w) (hw2 : w ≤ rng.max) :
    ({ p with value := w } : Parameter).slider_value
        = pyRound (w * p.scale - p.offset) ∧
    0 ≤ ({ p with value := w } : Parameter).slider_value ∧
    ({ p with value := w } : Parameter).slider_value ≤ SLIDER_MAX := by
  obtain ⟨hne, hpe⟩ := init_inj var rng p hinit
  subst hpe
  have hmne : rng.max - rng.min ≠ 0 := sub_ne_zero.mpr (ne_of_gt hlt)
  have hspos : (0 : ℚ) < (SLIDER_MAX : ℚ) / (rng.max - rng.min) :=
    initParam_scale_pos var rng hlt
  have harg : w * (initParam var rng).scale - (initParam var rng).offset
      = (w - rng.min) * ((SLIDER_MAX : ℚ) / (rng.max - rng.min)) := by
    unfold initParam
    ring
  have hlow : (0 : ℚ) ≤ (w - rng.min) * ((SLIDER_MAX : ℚ) / (rng.max - rng.min)) :=
    mul_nonneg (by linarith) (le_of_lt hspos)
  have hcancel : (rng.max - rng.min) * ((SLIDER_MAX : ℚ) / (rng.max - rng.min))
      = 200 := by
    simp only [SLIDER_MAX]
    push_cast
    field_simp
  have hhigh : (w - rng.min) * ((SLIDER_MAX : ℚ) / (rng.max - rng.min)) ≤ 200 := by
    have := mul_le_mul_of_nonneg_right
      (show w - rng.min ≤ rng.max - rng.min by linarith) (le_of_lt hspos)
    linarith [hcancel]
  refine ⟨rfl, ?_, ?_⟩
  · show 0 ≤ pyRound (w * (initParam var rng).scale - (initParam var rng).offset)
    rw [harg]
    exact le_pyRound 0 _ (by push_cast; linarith)
  · show pyRound (w * (initParam var rng).scale - (initParam var rng).offset)
        ≤ SLIDER_MAX
    rw [harg]
    apply pyRound_le
    push_cast [SLIDER_MAX] at hhigh ⊢
    linarith

/-- Witness for C6 at the gamma range with current value 1. -/
theorem claim6_slider_value_range_witness :
    gammaRange.min < gammaRange.max ∧ gammaRange.min ≤ (1 : ℚ) ∧
    (1 : ℚ) ≤ gammaRange.max ∧
    (({ initParam "gamma" gammaRange with value := (1 : ℚ) } : Parameter).slider_value
        = pyRound ((1 : ℚ) * (initParam "gamma" gammaRange).scale
            - (initParam "gamma" gammaRange).offset) ∧
      0 ≤ ({ initParam "gamma" gammaRange with value := (1 : ℚ) } : Parameter).slider_value ∧
      ({ initParam "gamma" gammaRange with value := (1 : ℚ) } : Parameter).slider_value
        ≤ SLIDER_MAX) :=
  ⟨by norm_num [gammaRange], by norm_num [gammaRange], by norm_num [gammaRange],
   claim6_slider_value_range "gamma" gammaRange _ 1 (by norm_num [gammaRange])
     (init_eq_some _ _ (by norm_num [gammaRange]))
     (by norm_num [gammaRange]) (by norm_num [gammaRange])⟩

/-! ### C2: the value invariant -/

/-- An in-range slider update keeps the value inside `[min, max]`. -/
theorem set_value_mem (rng : Range) (p : Parameter) (pos : ℤ)
    (hlt : rng.min < rng.max)
    (hs : p.scale = (SLIDER_MAX : ℚ) / (rng.max - rng.min))
    (ho : p.offset = rng.min * p.scale)
    (h0 : 0 ≤ pos) (h1 : pos ≤ SLIDER_MAX) :
    rng.min ≤ (p.set_from_slider_value pos).value ∧
    (p.set_from_slider_value pos).value ≤ rng.max := by
  rw [set_value_eq rng p pos hlt hs ho]
  have hq0 : (0 : ℚ) ≤ (pos : ℚ) := by exact_mod_cast h0
  have hq1 : (pos : ℚ) ≤ 200 := by
    have : pos ≤ (200 : ℤ) := by simpa [SLIDER_MAX] using h1
    exact_mod_cast this
  have hm : (0 : ℚ) ≤ rng.max - rng.min := by linarith
  constructor
  · nlinarith [mul_nonneg hq0 hm]
  · nlinarith [mul_nonneg (by linarith : (0 : ℚ) ≤ 200 - (pos : ℚ)) hm]

/-- Each UI-reachable operation preserves the derived fields and the value
invariant. -/
theorem applyOp_preserves (rng : Range) (p : Parameter) (op : Op)
    (hlt : rng.min < rng.max)
    (hd1 : rng.min ≤ rng.default) (hd2 : rng.default ≤ rng.max)
    (hs : p.scale = (SLIDER_MAX : ℚ) / (rng.max - rng.min))
    (ho : p.offset = rng.min * p.scale)
    (hv1 : rng.min ≤ p.value) (hv2 : p.value ≤ rng.max)
    (hop : op.valid = true) :
    (applyOp rng p op).scale = p.scale ∧ (applyOp rng p op).offset = p.offset ∧
    rng.min ≤ (applyOp rng p op).value ∧ (applyOp rng p op).value ≤ rng.max := by
  cases op with
  | reset => exact ⟨rfl, rfl, hd1, hd2⟩
  | setSlider pos =>
    simp only [Op.valid, Bool.and_eq_true, decide_eq_true_eq] at hop
    obtain ⟨h0, h1⟩ := hop
    obtain ⟨hb1, hb2⟩ := set_value_mem rng p pos hlt hs ho h0 h1
    exact ⟨rfl, rfl, hb1, hb2⟩

/-- C2: for every parameter built from a range with `min < max` and
`default ∈ [min, max]`: initialization sets `value = default`, reset sets
`value = default`, and after any sequence of UI-reachable operations the
value remains within `[min, max]`. -/
theorem claim2_value_invariant (var : String) (rng : Range) (p0 : Parameter)
    (hlt : rng.min < rng.max)
    (hd1 : rng.min ≤ rng.default) (hd2 : rng.default ≤ rng.max)
    (hinit : Parameter.init var rng = some p0) :
    p0.value = rng.default ∧
    (∀ p : Parameter, (slot_reset_var rng p).value = rng.default) ∧
    (∀ ops : List Op, (∀ op ∈ ops, op.valid = true) →
      rng.min ≤ (applyOps rng p0 ops).value ∧
      (applyOps rng p0 ops).value ≤ rng.max) := by
  obtain ⟨hne, hpe⟩ := init_inj var rng p0 hinit
  subst hpe
  have main : ∀ ops : List Op, ∀ p : Parameter,
      p.scale = (SLIDER_MAX : ℚ) / (rng.max - rng.min) →
      p.offset = rng.min * p.scale →
      rng.min ≤ p.value → p.value ≤ rng.max →
      (∀ op ∈ ops, op.valid = true) →
      rng.min ≤ (applyOps rng p ops).value ∧
      (applyOps rng p ops).value ≤ rng.max := by
    intro ops
    induction ops with
    | nil => exact fun p _ _ h1 h2 _ => ⟨h1, h2⟩
    | cons op rest ih =>
      intro p hs ho h1 h2 hv
      have hop := hv op (List.mem_cons_self op rest)
      have hrest : ∀ o ∈ rest, o.valid = true :=
        fun o hmem => hv o (List.mem_cons_of_mem _ hmem)
      obtain ⟨ps, po, pv1, pv2⟩ :=
        applyOp_preserves rng p op hlt hd1 hd2 hs ho h1 h2 hop
      have hstep : applyOps rng p (op :: rest)
          = applyOps rng (applyOp rng p op) rest := rfl
      rw [hstep]
      exact ih (applyOp rng p op) (by rw [ps, hs]) (by rw [po, ho, ps]) pv1 pv2 hrest
  exact ⟨rfl, fun p => rfl, fun ops hv => main ops (initParam var rng) rfl rfl hd1 hd2 hv⟩

/-- Witness for C2 at the saturation range with the operation sequence
`[setSlider 200, reset, setSlider 0, setSlider 67]`. -/
theorem claim2_value_invariant_witness :
    saturationRange.min < saturationRange.max ∧
    saturationRange.min ≤ saturationRange.default ∧
    saturationRange.default ≤ saturationRange.max ∧
    (∀ op ∈ [Op.setSlider 200, Op.reset, Op.setSlider 0, Op.setSlider 67],
      op.valid = true) ∧
    saturationRange.min
        ≤ (applyOps saturationRange (initParam "saturation" saturationRange)
            [Op.setSlider 200, Op.reset, Op.setSlider 0, Op.setSlider 67]).value ∧
    (applyOps saturationRange (initParam "saturation" saturationRange)
        [Op.setSlider 200, Op.reset, Op.setSlider 0, Op.setSlider 67]).value
      ≤ saturationRange.max := by
  have hv : ∀ op ∈ [Op.setSlider 200, Op.reset, Op.setSlider 0, Op.setSlider 67],
      op.valid = true := by
    intro op hmem
    fin_cases hmem <;> simp [Op.valid, SLIDER_MAX]
  have hmain := (claim2_value_invariant "saturation" saturationRange _
    (by norm_num [saturationRange]) (by norm_num [saturationRange])
    (by norm_num [saturationRange])
    (init_eq_some _ _ (by norm_num [saturationRange]))).2.2
    [Op.setSlider 200, Op.reset, Op.setSlider 0, Op.setSlider 67] hv
  exact ⟨by norm_num [saturationRange], by norm_num [saturationRange],
    by norm_num [saturationRange], hv, hmain.1, hmain.2⟩

/-! ### C3: round-trip from the default value -/

/-- C3: starting from `value = default`, applying
`set_from_slider_value(slider_value())` yields a value within half a slider
step — `(max - min) / (2 * SLIDER_MAX)` — of the default.  This covers all
four configured ranges, including gamma. -/
theorem claim3_default_roundtrip (var : String) (rng : Range) (p0 : Parameter)
    (hlt : rng.min < rng.max)
    (hinit : Parameter.init var rng = some p0) :
    |(p0.set_from_slider_value p0.slider_value).value - rng.default|
      ≤ (rng.max - rng.min) / 400 := by
  obtain ⟨hne', hpe⟩ := init_inj var rng p0 hinit
  subst hpe
  have hne : rng.max - rng.min ≠ 0 := sub_ne_zero.mpr (ne_of_gt hlt)
  have hspos : (0 : ℚ) < (SLIDER_MAX : ℚ) / (rng.max - rng.min) :=
    initParam_scale_pos var rng hlt
  have h1 : (initParam var rng).slider_value
      = pyRound (rng.default * ((SLIDER_MAX : ℚ) / (rng.max - rng.min))
          - rng.min * ((SLIDER_MAX : ℚ) / (rng.max - rng.min))) := rfl
  have h2 : ((initParam var rng).set_from_slider_value
        ((initParam var rng).slider_value)).value
      = ((((initParam var rng).slider_value : ℤ) : ℚ)
            + rng.min * ((SLIDER_MAX : ℚ) / (rng.max - rng.min)))
          / ((SLIDER_MAX : ℚ) / (rng.max - rng.min)) := rfl
  rw [h2, h1]
  have hkey :
      (((pyRound (rng.default * ((SLIDER_MAX : ℚ) / (rng.max - rng.min))
            - rng.min * ((SLIDER_MAX : ℚ) / (rng.max - rng.min))) : ℤ) : ℚ)
          + rng.min * ((SLIDER_MAX : ℚ) / (rng.max - rng.min)))
        / ((SLIDER_MAX : ℚ) / (rng.max - rng.min)) - rng.default
      = (((pyRound (rng.default * ((SLIDER_MAX : ℚ) / (rng.max - rng.min))
            - rng.min * ((SLIDER_MAX : ℚ) / (rng.max - rng.min))) : ℤ) : ℚ)
          - (rng.default * ((SLIDER_MAX : ℚ) / (rng.max - rng.min))
            - rng.min * ((SLIDER_MAX : ℚ) / (rng.max - rng.min))))
        / ((SLIDER_MAX : ℚ) / (rng.max - rng.min)) := by
    have hsne : ((SLIDER_MAX : ℚ) / (rng.max - rng.min)) ≠ 0 := ne_of_gt hspos
    nth_rewrite 2 [(mul_div_cancel_right₀ rng.default hsne).symm]
    rw [div_sub_div_same]
    congr 1
    ring
  rw [hkey, abs_div, abs_of_pos hspos]
  have habs := abs_pyRound_sub_le
    (rng.default * ((SLIDER_MAX : ℚ) / (rng.max - rng.min))
      - rng.min * ((SLIDER_MAX : ℚ) / (rng.max - rng.min)))
  have hfin : (1 / 2 : ℚ) / ((SLIDER_MAX : ℚ) / (rng.max - rng.min))
      = (rng.max - rng.min) / 400 := by
    push_cast [SLIDER_MAX]
    rw [div_div_eq_mul_div]
    ring
  calc |(((pyRound (rng.default * ((SLIDER_MAX : ℚ) / (rng.max - rng.min))
          - rng.min * ((SLIDER_MAX : ℚ) / (rng.max - rng.min))) : ℤ) : ℚ)
          - (rng.default * ((SLIDER_MAX : ℚ) / (rng.max - rng.min))
            - rng.min * ((SLIDER_MAX : ℚ) / (rng.max - rng.min))))|
        / ((SLIDER_MAX : ℚ) / (rng.max - rng.min))
      ≤ (1 / 2 : ℚ) / ((SLIDER_MAX : ℚ) / (rng.max - rng.min)) :=
        (div_le_div_iff_of_pos_right hspos).mpr habs
    _ = (rng.max - rng.min) / 400 := hfin

/-- Witness for C3 at the gamma range (min 0.1, max 5.0, default 1.0). -/
theorem claim3_default_roundtrip_witness :
    gammaRange.min < gammaRange.max ∧
    |((initParam "gamma" gammaRange).set_from_slider_value
        ((initParam "gamma" gammaRange).slider_value)).value
      - gammaRange.default| ≤ (gammaRange.max - gammaRange.min) / 400 :=
  ⟨by norm_num [gammaRange],
   claim3_default_roundtrip "gamma" gammaRange _ (by norm_num [gammaRange])
     (init_eq_some _ _ (by norm_num [gammaRange]))⟩

/-! ### C9: concrete examples -/

/-- C9: for the contrast parameter (min 0.0, max 2.0, default 1.0,
`SLIDER_MAX` 200): position 100 yields value 1.0 and label `"1.00"`,
position 0 yields 0.0 / `"0.00"`, position 200 yields 2.0 / `"2.00"`; for
the brightness parameter (min -0.5, max 0.5, default 0.0), `slider_value()`
at value 0.0 returns 100. -/
theorem claim9_examples :
    ((paramOf "contrast").map fun p => (p.set_from_slider_value 100).value)
        = some 1 ∧
    ((paramOf "contrast").map fun p => (p.set_from_slider_value 100).label)
        = some "1.00" ∧
    ((paramOf "contrast").map fun p => (p.set_from_slider_value 0).value)
        = some 0 ∧
    ((paramOf "contrast").map fun p => (p.set_from_slider_value 0).label)
        = some "0.00" ∧
    ((paramOf "contrast").map fun p => (p.set_from_slider_value 200).value)
        = some 2 ∧
    ((paramOf "contrast").map fun p => (p.set_from_slider_value 200).label)
        = some "2.00" ∧
    ((paramOf "brightness").map fun p => p.slider_value) = some 100 := by
  have hc : paramOf "contrast" = some (initParam "contrast" contrastRange) := by
    unfold paramOf
    rw [show List.lookup "contrast" RANGES = some contrastRange from rfl]
    exact init_eq_some _ _ (by norm_num [contrastRange])
  have hb : paramOf "brightness" = some (initParam "brightness" brightnessRange) := by
    unfold paramOf
    rw [show List.lookup "brightness" RANGES = some brightnessRange from rfl]
    exact init_eq_some _ _ (by norm_num [brightnessRange])
  have hlt : contrastRange.min < contrastRange.max := by norm_num [contrastRange]
  have hv100 : ((initParam "contrast" contrastRange).set_from_slider_value 100).value
      = 1 := by
    rw [initParam_set_value _ _ hlt 100]
    norm_num [contrastRange]
  have hv0 : ((initParam "contrast" contrastRange).set_from_slider_value 0).value
      = 0 := by
    rw [initParam_set_value _ _ hlt 0]
    norm_num [contrastRange]
  have hv200 : ((initParam "contrast" contrastRange).set_from_slider_value 200).value
      = 2 := by
    rw [initParam_set_value _ _ hlt 200]
    norm_num [contrastRange]
  have hlab : ∀ pos : ℤ,
      ((initParam "contrast" contrastRange).set_from_slider_value pos).label
        = formatFixed2
            (((initParam "contrast" contrastRange).set_from_slider_value pos).value) :=
    fun _ => rfl
  refine ⟨?_, ?_, ?_, ?_, ?_, ?_, ?_⟩
  · rw [hc]
    show some (((initParam "contrast" contrastRange).set_from_slider_value 100).value)
        = some 1
    rw [hv100]
  · rw [hc]
    show some (((initParam "contrast" contrastRange).set_from_slider_value 100).label)
        = some "1.00"
    rw [hlab 100, hv100, formatFixed2_eval 1 100 (by norm_num)]
    rfl
  · rw [hc]
    show some (((initParam "contrast" contrastRange).set_from_slider_value 0).value)
        = some 0
    rw [hv0]
  · rw [hc]
    show some (((initParam "contrast" contrastRange).set_from_slider_value 0).label)
        = some "0.00"
    rw [hlab 0, hv0, formatFixed2_eval 0 0 (by norm_num)]
    rfl
  · rw [hc]
    show some (((initParam "contrast" contrastRange).set_from_slider_value 200).value)
        = some 2
    rw [hv200]
  · rw [hc]
    show some (((initParam "contrast" contrastRange).set_from_slider_value 200).label)
        = some "2.00"
    rw [hlab 200, hv200, formatFixed2_eval 2 200 (by norm_num)]
    rfl
  · rw [hb]
    show some ((initParam "brightness" brightnessRange).slider_value) = some 100
    have hsl : (initParam "brightness" brightnessRange).slider_value = 100 := by
      show pyRound ((initParam "brightness" brightnessRange).value
          * (initParam "brightness" brightnessRange).scale
          - (initParam "brightness" brightnessRange).offset) = 100
      apply pyRound_eq_of_lt_half
      · norm_num [initParam, brightnessRange, SLIDER_MAX]
      · norm_num [initParam, brightnessRange, SLIDER_MAX]
    rw [hsl]

/-! ### C8: the filter-chain command string -/

/-- C8: on every slider change, the command string produced equals `eq=`
followed by `contrast=<v>:brightness=<v>:saturation=<v>:gamma=<v>`, where
each `<v>` is the `label()` of the corresponding (post-update) parameter,
in that fixed order, joined by colons. -/
theorem claim8_command_string (p1 p2 p3 p4 : Parameter) (v : String) (x : ℤ)
    (h1 : p1.var = "contrast") (h2 : p2.var = "brightness")
    (h3 : p3.var = "saturation") (h4 : p4.var = "gamma") :
    (slot_slider_value_changed [p1, p2, p3, p4] v x).2
      = "eq=contrast=" ++ (upd v x p1).label
        ++ ":brightness=" ++ (upd v x p2).label
        ++ ":saturation=" ++ (upd v x p3).label
        ++ ":gamma=" ++ (upd v x p4).label := by
  have e1 : (upd v x p1).var = "contrast" := (upd_var v x p1).trans h1
  have e2 : (upd v x p2).var = "brightness" := (upd_var v x p2).trans h2
  have e3 : (upd v x p3).var = "saturation" := (upd_var v x p3).trans h3
  have e4 : (upd v x p4).var = "gamma" := (upd_var v x p4).trans h4
  show "eq=" ++ String.intercalate ":"
      (([p1, p2, p3, p4].map (upd v x)).map fun p => p.var ++ "=" ++ p.label) = _
  simp only [List.map_cons, List.map_nil]
  rw [intercalate_four, e1, e2, e3, e4]
  rw [show ("eq=contrast=" : String) = ("eq=" ++ "contrast") ++ "=" from rfl,
      show (":brightness=" : String) = (":" ++ "brightness") ++ "=" from rfl,
      show (":saturation=" : String) = (":" ++ "saturation") ++ "=" from rfl,
      show (":gamma=" : String) = (":" ++ "gamma") ++ "=" from rfl]
  simp only [String.append_assoc]

/-- Witness for C8: the four parameters built from `RANGES`, updating
contrast from slider position 0. -/
theorem claim8_command_string_witness :
    (initParam "contrast" contrastRange).var = "contrast" ∧
    (initParam "brightness" brightnessRange).var = "brightness" ∧
    (initParam "saturation" saturationRange).var = "saturation" ∧
    (initParam "gamma" gammaRange).var = "gamma" ∧
    (slot_slider_value_changed
        [initParam "contrast" contrastRange,
         initParam "brightness" brightnessRange,
         initParam "saturation" saturationRange,
         initParam "gamma" gammaRange] "contrast" 0).2
      = "eq=contrast=" ++ (upd "contrast" 0 (initParam "contrast" contrastRange)).label
        ++ ":brightness=" ++ (upd "contrast" 0 (initParam "brightness" brightnessRange)).label
        ++ ":saturation=" ++ (upd "contrast" 0 (initParam "saturation" saturationRange)).label
        ++ ":gamma=" ++ (upd "contrast" 0 (initParam "gamma" gammaRange)).label :=
  ⟨rfl, rfl, rfl, rfl,
   claim8_command_string _ _ _ _ "contrast" 0 rfl rfl rfl rfl⟩

end Vidfilter
